import Mathlib

/-!
# Verification of the spotify-cli search-to-playback pipeline

A shallow embedding, in Lean 4, of the core logic of the `spotify-cli`
repository (Python).  The controller methods in
`spotify_cli/controllers/spotify_controller.py` are translated into pure
Lean functions; each outbound call to an external collaborator (the
catalog/playback service, the local text-generation endpoint, the
interactive prompt) becomes an explicit parameter carrying that call's
outcome, and each side effect (printed message, transport command) is
recorded in an explicit effect record.

Python string operations used by the code (`str.strip`, `str.split`,
substring membership `in`, `int(...)`) are modelled on `List Char`,
faithful to CPython semantics on the character set the program deals
with (ASCII whitespace; decimal integer literals with an optional sign;
numeric-literal underscores and non-ASCII digits accepted by CPython's
`int` are not modelled).
-/

namespace SpotifyCli

/-- Python `str.isspace` / the whitespace set used by `str.strip()` with no
argument, restricted to the ASCII range: space, tab, linefeed, carriage
return, vertical tab, form feed. -/
def pyIsSpace (c : Char) : Bool :=
  c = ' ' || c = '\t' || c = '\n' || c = '\r' || c = Char.ofNat 11 || c = Char.ofNat 12

/-- Python `str.strip()` (no argument): drop leading and trailing whitespace.
`List Char` version. -/
def pyStripL (l : List Char) : List Char :=
  ((l.dropWhile pyIsSpace).reverse.dropWhile pyIsSpace).reverse

/-- Python `str.strip()` on `String`. -/
def pyStrip (s : String) : String :=
  ⟨pyStripL s.data⟩

/-- Python `s.split(" - ")`: cut `l` at each non-overlapping occurrence of
the three-character separator `" - "`, scanning left to right.  Always
returns at least one part; returns `[l]` when the separator is absent. -/
def splitOnSep : List Char → List (List Char)
  | ' ' :: '-' :: ' ' :: rest => [] :: splitOnSep rest
  | c :: rest =>
    match splitOnSep rest with
    | [] => [[c]]
    | p :: ps => (c :: p) :: ps
  | [] => [[]]

/-- Python `" - " in s`: does the separator occur as a substring? -/
def containsSep : List Char → Bool
  | ' ' :: '-' :: ' ' :: _ => true
  | _ :: rest => containsSep rest
  | [] => false

/-- Inverse of `splitOnSep`: interleave the parts with the separator. -/
def joinSep : List (List Char) → List Char
  | [] => []
  | [p] => p
  | p :: ps => p ++ ' ' :: '-' :: ' ' :: joinSep ps

/-- Accumulator run of Python `int()` over the digit block: every remaining
character must be an ASCII decimal digit. -/
def pyDigitsAux : List Char → Nat → Option Nat
  | [], acc => some acc
  | c :: rest, acc =>
    if c.isDigit then pyDigitsAux rest (acc * 10 + (c.toNat - 48)) else none

/-- Python `int(s)` on an already-stripped string: an optional sign followed
by at least one ASCII decimal digit; anything else raises `ValueError`,
modelled as `none`. -/
def pyInt : List Char → Option Int
  | [] => none
  | '+' :: rest =>
    if rest = [] then none else (pyDigitsAux rest 0).map (fun n => (n : Int))
  | '-' :: rest =>
    if rest = [] then none else (pyDigitsAux rest 0).map (fun n => -(n : Int))
  | l => (pyDigitsAux l 0).map (fun n => (n : Int))

theorem splitOnSep_ne_nil (l : List Char) : splitOnSep l ≠ [] := by
  induction l using splitOnSep.induct with
  | _ => simp_all [splitOnSep]

theorem joinSep_cons_cons (c : Char) (p : List Char) (ps : List (List Char)) :
    joinSep ((c :: p) :: ps) = c :: joinSep (p :: ps) := by
  cases ps <;> simp [joinSep]

theorem joinSep_splitOnSep (l : List Char) : joinSep (splitOnSep l) = l := by
  induction l using splitOnSep.induct with
  | case1 rest ih =>
    obtain ⟨p, ps, hp⟩ : ∃ p ps, splitOnSep rest = p :: ps := by
      cases hsp : splitOnSep rest with
      | nil => exact absurd hsp (splitOnSep_ne_nil rest)
      | cons p ps => exact ⟨p, ps, rfl⟩
    rw [splitOnSep.eq_1, hp]
    simp only [joinSep, List.nil_append]
    rw [← hp, ih]
  | case2 c rest h hsplit ih => exact absurd hsplit (splitOnSep_ne_nil rest)
  | case3 c rest h p ps hp ih =>
    rw [splitOnSep.eq_2 c rest h, hp, joinSep_cons_cons, ← hp, ih]
  | case4 => simp [splitOnSep, joinSep]

theorem containsSep_iff (l : List Char) :
    containsSep l = true ↔ 2 ≤ (splitOnSep l).length := by
  induction l using splitOnSep.induct with
  | case1 rest ih =>
    rw [splitOnSep.eq_1]
    have h1 : 1 ≤ (splitOnSep rest).length :=
      List.length_pos.mpr (splitOnSep_ne_nil rest)
    simp [containsSep]
    omega
  | case2 c rest h hsplit ih => exact absurd hsplit (splitOnSep_ne_nil rest)
  | case3 c rest h p ps hp ih =>
    rw [splitOnSep.eq_2 c rest h, hp, containsSep.eq_2 c rest h]
    rw [hp] at ih
    simpa using ih
  | case4 => simp [containsSep, splitOnSep]

theorem not_space_of_dropWhile_cons {l t : List Char} {c : Char}
    (h : l.dropWhile pyIsSpace = c :: t) : pyIsSpace c = false := by
  induction l with
  | nil => simp at h
  | cons a as ih =>
    by_cases hp : pyIsSpace a
    · rw [List.dropWhile_cons_of_pos hp] at h
      exact ih h
    · rw [List.dropWhile_cons_of_neg hp] at h
      cases h
      simpa using hp

theorem dropWhile_eq_pyStripL_append (l : List Char) :
    ∃ w, l.dropWhile pyIsSpace = pyStripL l ++ w := by
  refine ⟨((l.dropWhile pyIsSpace).reverse.takeWhile pyIsSpace).reverse, ?_⟩
  unfold pyStripL
  rw [← List.reverse_append, List.takeWhile_append_dropWhile, List.reverse_reverse]

theorem pyStripL_head_not_space {l t : List Char} {c : Char}
    (h : pyStripL l = c :: t) : pyIsSpace c = false := by
  obtain ⟨w, hw⟩ := dropWhile_eq_pyStripL_append l
  rw [h] at hw
  exact not_space_of_dropWhile_cons hw

theorem pyStripL_reverse_head_not_space {l t : List Char} {c : Char}
    (h : (pyStripL l).reverse = c :: t) : pyIsSpace c = false := by
  unfold pyStripL at h
  rw [List.reverse_reverse] at h
  exact not_space_of_dropWhile_cons h

theorem splitOnSep_pyStripL_parts_ne_nil {l a b : List Char}
    (h : splitOnSep (pyStripL l) = [a, b]) : a ≠ [] ∧ b ≠ [] := by
  have hjoin := joinSep_splitOnSep (pyStripL l)
  rw [h] at hjoin
  simp only [joinSep] at hjoin
  constructor
  · rintro rfl
    simp only [List.nil_append] at hjoin
    have := pyStripL_head_not_space hjoin.symm
    simp [pyIsSpace] at this
  · rintro rfl
    have hrev : (pyStripL l).reverse = ' ' :: '-' :: ' ' :: a.reverse := by
      rw [← hjoin]; simp
    have := pyStripL_reverse_head_not_space hrev
    simp [pyIsSpace] at this

theorem pyStripL_eq_nil_of_all_space {l : List Char}
    (h : l.all pyIsSpace = true) : pyStripL l = [] := by
  have hd : l.dropWhile pyIsSpace = [] := by
    rw [List.dropWhile_eq_nil_iff]
    intro x hx
    exact List.all_eq_true.mp h x hx
  unfold pyStripL
  rw [hd]
  rfl

/-- Decidable form of the condition named by the spec: splitting on
`" - "` yields exactly two non-empty parts. -/
def twoNonEmptyParts (l : List Char) : Bool :=
  match splitOnSep l with
  | [a, b] => !a.isEmpty && !b.isEmpty
  | _ => false

theorem twoNonEmptyParts_iff (l : List Char) :
    twoNonEmptyParts l = true ↔ ∃ a b, splitOnSep l = [a, b] ∧ a ≠ [] ∧ b ≠ [] := by
  unfold twoNonEmptyParts
  constructor
  · intro h
    split at h
    next a b heq =>
      refine ⟨a, b, heq, ?_, ?_⟩ <;> simp_all [List.isEmpty_iff]
    next => simp at h
  · rintro ⟨a, b, heq, ha, hb⟩
    rw [heq]
    simp [List.isEmpty_iff, ha, hb]

/-!
## Data model

A `Track` carries the fields of the catalog search payload that the
controller reads (`track["name"]`, the artist names, `track["uri"]`).
A `Device` carries the fields the controller reads from the device
listing.  `ApiResult α` is the outcome of one remote call: a payload,
or a raised transport error (always caught by the controller) carrying
the text interpolated into the error status line.
-/

structure Track where
  name : String
  artists : List String
  uri : String
  deriving DecidableEq, Repr

/-- Fallback element for in-bounds list indexing. -/
def defaultTrack : Track := ⟨"", [], ""⟩

structure Device where
  id : String
  name : String
  typ : String
  is_active : Bool
  deriving DecidableEq, Repr

inductive ApiResult (α : Type) where
  | ok (val : α)
  | err (msg : String)
  deriving DecidableEq, Repr

/-- One printed status line of the controller, by kind, with the payload
the source interpolates into it.  `noDevicesRemediation` stands for the
four-line block printed by `play_track` when no device is available
(header plus the three numbered remediation steps, source lines 78-81). -/
inductive Msg where
  | errorGettingDevices (e : String)
  | errorSearching (e : String)
  | noDevicesRemediation
  | playingTrack
  | errorPlayingTrack (e : String)
  | enhancedSearch (q : String)
  | noTracksFound
  | searchResults (q : String) (ts : List Track)
  | selectedTrack (t : Track)
  | invalidSelection
  | cancelled
  | playingBest (t : Track)
  | volumeSet (v : Int)
  | errorSettingVolume (e : String)
  deriving DecidableEq, Repr

/-- Observable effects of one controller operation: the printed status
lines in order, and the outbound calls made to the playback service
(catalog searches with their `(query, limit)` arguments, invocations of
the controller's own `play_track`, transport `start_playback` commands
with their `(uris, device_id)` arguments, transport volume commands). -/
structure Effects where
  msgs : List Msg := []
  searchCalls : List (String × Nat) := []
  playTrackCalls : List String := []
  startCalls : List (List String × Option String) := []
  volumeCalls : List Int := []
  deriving DecidableEq, Repr

/-!
## Query Enhancer

`SpotifyController.enhance_search_query` (controllers module, lines
89-114).  The single outbound `LLMHelper.generate` call is the
`llmReply` parameter: `none` models `generate` returning `None`, which
is what it does on any transport failure, timeout, or malformed payload
(it catches every exception and returns `None`, `llm_helper.py` lines
12-23); `some r` models a reply string `r`.
-/

def enhance_search_query (user_input : String) (llmReply : Option String) : String :=
  match llmReply with
  | none => user_input
  | some r =>
    if r.data = [] then user_input
    else
      let enhanced := pyStripL r.data
      if containsSep enhanced = false ∨ (splitOnSep enhanced).length ≠ 2 then
        user_input
      else if enhanced ≠ [] then ⟨enhanced⟩ else user_input

theorem enhance_of_not_two {r : String} (u : String)
    (h : twoNonEmptyParts (pyStripL r.data) = false) :
    enhance_search_query u (some r) = u := by
  unfold enhance_search_query
  by_cases hr : r.data = []
  · simp [hr]
  · simp only [hr, if_neg, if_false]
    have hlen : (splitOnSep (pyStripL r.data)).length ≠ 2 := by
      intro hlen
      obtain ⟨a, b, hab⟩ : ∃ a b, splitOnSep (pyStripL r.data) = [a, b] := by
        cases hsp : splitOnSep (pyStripL r.data) with
        | nil => exact absurd hsp (splitOnSep_ne_nil _)
        | cons p ps =>
          cases ps with
          | nil => simp [hsp] at hlen
          | cons q qs =>
            cases qs with
            | nil => exact ⟨p, q, rfl⟩
            | cons _ _ => simp [hsp] at hlen
      obtain ⟨ha, hb⟩ := splitOnSep_pyStripL_parts_ne_nil hab
      rw [(twoNonEmptyParts_iff _).mpr ⟨a, b, hab, ha, hb⟩] at h
      simp at h
    simp [hlen]

theorem enhance_of_two {r : String} (u : String)
    (h : twoNonEmptyParts (pyStripL r.data) = true) :
    enhance_search_query u (some r) = pyStrip r := by
  obtain ⟨a, b, hab, ha, hb⟩ := (twoNonEmptyParts_iff _).mp h
  have hne : pyStripL r.data ≠ [] := by
    intro hnil
    rw [hnil] at hab
    simp [splitOnSep] at hab
  have hrne : r.data ≠ [] := by
    intro hnil
    exact hne (by rw [hnil]; rfl)
  have hcontains : containsSep (pyStripL r.data) = true := by
    rw [containsSep_iff, hab]
    simp
  unfold enhance_search_query pyStrip
  simp [hrne, hcontains, hab, hne]

theorem enhance_of_none (u : String) : enhance_search_query u none = u := rfl

/-!
## Controller operations

Each method of `SpotifyController` (controllers module) becomes a pure
function from the outcomes of the remote calls it makes to an `Effects`
record.  `devRes` is the outcome of `sp.devices()`, `searchRes` of
`sp.search(...)`, `startRes` of `sp.start_playback(...)`, `volRes` of
`sp.volume(...)`, `choiceInput` of the interactive `input(...)` prompt
(`none` models `KeyboardInterrupt` while waiting for input).
-/

/-- `SpotifyController.get_devices` (lines 41-48): the device list, or
`[]` with an error status line when the call raises. -/
def get_devices (devRes : ApiResult (List Device)) : List Device × List Msg :=
  match devRes with
  | .ok ds => (ds, [])
  | .err e => ([], [Msg.errorGettingDevices e])

/-- `SpotifyController.search_track` (lines 64-71): the item list, or
`None` with an error status line when the call raises. -/
def search_track (searchRes : ApiResult (List Track)) :
    Option (List Track) × List Msg :=
  match searchRes with
  | .ok ts => (some ts, [])
  | .err e => (none, [Msg.errorSearching e])

/-- `SpotifyController.play_track` (controllers module, lines 73-87):
re-check device availability; with no device, print the remediation
block and return without touching the transport; otherwise issue
`start_playback` for the single given URI and report success or the
caught transport error. -/
def play_track (track_uri : String) (device_id : Option String)
    (devRes : ApiResult (List Device)) (startRes : ApiResult Unit) : Effects :=
  let devices := (get_devices devRes).1
  let devMsgs := (get_devices devRes).2
  if devices.isEmpty then
    { msgs := devMsgs ++ [Msg.noDevicesRemediation] }
  else
    match startRes with
    | .ok _ =>
      { msgs := devMsgs ++ [Msg.playingTrack],
        startCalls := [([track_uri], device_id)] }
    | .err e =>
      { msgs := devMsgs ++ [Msg.errorPlayingTrack e],
        startCalls := [([track_uri], device_id)] }

/-- `SpotifyController.play_track` of the legacy standalone script
`src/spotify_cli.py` (lines 75-81): no device check at all; the
transport `start_playback` command is issued unconditionally and any
failure is caught and reported. -/
def legacy_play_track (track_uri : String) (device_id : Option String)
    (startRes : ApiResult Unit) : Effects :=
  match startRes with
  | .ok _ =>
    { msgs := [Msg.playingTrack], startCalls := [([track_uri], device_id)] }
  | .err e =>
    { msgs := [Msg.errorPlayingTrack e], startCalls := [([track_uri], device_id)] }

/-- Selection-index computation of `search_and_play` (lines 134-135):
`choice = input(...).strip()`, then `index = 0 if not choice else
int(choice) - 1`; `none` models the `ValueError` raised by `int`. -/
def selectIndex (raw : String) : Option Int :=
  let choice := pyStripL raw.data
  if choice = [] then some 0
  else (pyInt choice).map (fun n => n - 1)

/-- `SpotifyController.search_and_play` (controllers module, lines
116-146): enhance the query, surface the substitution if it changed the
query, search with limit 5, list candidates, read a selection, and on a
valid index call `play_track`; out-of-range indices report an invalid
selection, and `ValueError`/`KeyboardInterrupt` report a cancellation. -/
def search_and_play (query : String) (llmReply : Option String)
    (searchRes : ApiResult (List Track)) (choiceInput : Option String)
    (devRes : ApiResult (List Device)) (startRes : ApiResult Unit) : Effects :=
  let enhanced := enhance_search_query query llmReply
  let preMsgs := if enhanced ≠ query then [Msg.enhancedSearch enhanced] else []
  let found := (search_track searchRes).1
  let searchMsgs := (search_track searchRes).2
  let base : Effects :=
    { msgs := preMsgs ++ searchMsgs, searchCalls := [(enhanced, 5)] }
  match found with
  | none => { base with msgs := base.msgs ++ [Msg.noTracksFound] }
  | some ts =>
    if ts.isEmpty then { base with msgs := base.msgs ++ [Msg.noTracksFound] }
    else
      let listed := base.msgs ++ [Msg.searchResults enhanced ts]
      match choiceInput with
      | none => { base with msgs := listed ++ [Msg.cancelled] }
      | some raw =>
        match selectIndex raw with
        | none => { base with msgs := listed ++ [Msg.cancelled] }
        | some index =>
          if 0 ≤ index ∧ index < (ts.length : Int) then
            let t := ts.getD index.toNat defaultTrack
            let pe := play_track t.uri none devRes startRes
            { base with
              msgs := listed ++ [Msg.selectedTrack t] ++ pe.msgs,
              playTrackCalls := [t.uri],
              startCalls := pe.startCalls }
          else
            { base with msgs := listed ++ [Msg.invalidSelection] }

/-- `SpotifyController.play_best_match` (lines 212-223): search with
limit 1 and, if anything came back, call `play_track` on `tracks[0]`
with no prompt. -/
def play_best_match (query : String) (searchRes : ApiResult (List Track))
    (devRes : ApiResult (List Device)) (startRes : ApiResult Unit) : Effects :=
  let found := (search_track searchRes).1
  let searchMsgs := (search_track searchRes).2
  let base : Effects := { msgs := searchMsgs, searchCalls := [(query, 1)] }
  match found with
  | none => { base with msgs := base.msgs ++ [Msg.noTracksFound] }
  | some ts =>
    if ts.isEmpty then { base with msgs := base.msgs ++ [Msg.noTracksFound] }
    else
      let t := ts.getD 0 defaultTrack
      let pe := play_track t.uri none devRes startRes
      { base with
        msgs := base.msgs ++ [Msg.playingBest t] ++ pe.msgs,
        playTrackCalls := [t.uri],
        startCalls := pe.startCalls }

/-- `SpotifyController.set_volume` (lines 203-210): clamp into
`[0, 100]`, then issue the transport volume command and report success
or the caught transport error.  The legacy script's `set_volume`
(`src/spotify_cli.py` lines 165-172) is line-identical. -/
def set_volume (volume : Int) (volRes : ApiResult Unit) : Effects :=
  let v := max 0 (min 100 volume)
  match volRes with
  | .ok _ => { msgs := [Msg.volumeSet v], volumeCalls := [v] }
  | .err e => { msgs := [Msg.errorSettingVolume e], volumeCalls := [v] }

/-- Demo payloads used by witnesses and counterexamples. -/
def demoTrack : Track := ⟨"Weightless", ["Marconi Union"], "spotify:track:aaa"⟩

def demoTrack2 : Track := ⟨"Eye of the Tiger", ["Survivor"], "spotify:track:bbb"⟩

def demoDevice : Device := ⟨"d1", "Desk", "Computer", true⟩

/-- C2: for every enhancer reply whose whitespace-stripped form does not
split on the separator into exactly two non-empty parts,
`enhance_search_query` returns the original user input unchanged. -/
theorem enhance_passthrough_on_malformed_reply (u r : String)
    (h : twoNonEmptyParts (pyStripL r.data) = false) :
    enhance_search_query u (some r) = u :=
  enhance_of_not_two u h

theorem enhance_passthrough_on_malformed_reply_witness :
    twoNonEmptyParts (pyStripL "a calm ambient song".data) = false ∧
    enhance_search_query "chill" (some "a calm ambient song") = "chill" :=
  ⟨by decide, enhance_passthrough_on_malformed_reply "chill" "a calm ambient song" (by decide)⟩

/-- C3: for every enhancer reply whose whitespace-stripped form contains the
separator exactly once with non-empty sides, `enhance_search_query`
returns that stripped reply verbatim. -/
theorem enhance_returns_trimmed_wellformed_reply (u r : String)
    (h : twoNonEmptyParts (pyStripL r.data) = true) :
    enhance_search_query u (some r) = pyStrip r :=
  enhance_of_two u h

theorem enhance_returns_trimmed_wellformed_reply_witness :
    twoNonEmptyParts (pyStripL " Weightless - Marconi Union ".data) = true ∧
    enhance_search_query "chill" (some " Weightless - Marconi Union ")
      = pyStrip " Weightless - Marconi Union " ∧
    pyStrip " Weightless - Marconi Union " = "Weightless - Marconi Union" :=
  ⟨by decide,
   enhance_returns_trimmed_wellformed_reply "chill" " Weightless - Marconi Union " (by decide),
   by decide⟩

/-- C4: `enhance_search_query` is a total function of the generation
outcome, and on the failure outcome (`LLMHelper.generate` catches every
transport failure, timeout or malformed payload and returns `None`) it
returns the original user input unchanged. -/
theorem enhance_passthrough_on_generate_failure (u : String) :
    enhance_search_query u none = u := rfl

/-- C8: `set_volume` always issues the transport volume command with the
input clamped into `[0, 100]`; in particular input `150` issues `100`. -/
theorem set_volume_clamps (v : Int) (volRes : ApiResult Unit) :
    (set_volume v volRes).volumeCalls = [max 0 (min 100 v)] ∧
    (set_volume 150 volRes).volumeCalls = [100] := by
  cases volRes <;> simp [set_volume]

/-- C1 counterexample: the legacy standalone script `src/spotify_cli.py`
(cited by the claim) defines a `play_track` with no device check: it
issues the transport `start_playback` command unconditionally — in
particular in runs where the device listing is empty — and never prints
the remediation block. -/
theorem legacy_play_track_starts_without_device_check :
    (legacy_play_track "spotify:track:aaa" none (ApiResult.ok ())).startCalls
      = [(["spotify:track:aaa"], none)] ∧
    Msg.noDevicesRemediation ∉
      (legacy_play_track "spotify:track:aaa" none (ApiResult.ok ())).msgs := by
  decide

/-- C1 (amended): in the package controller
(`spotify_cli/controllers/spotify_controller.py`), for every track
identifier and every device-list outcome that is empty or failed,
`play_track` issues no `start_playback` command and reports the
three-step remediation message. -/
theorem play_track_gated_on_device_readiness
    (uri : String) (devId : Option String) (startRes : ApiResult Unit)
    (devRes : ApiResult (List Device))
    (h : devRes = ApiResult.ok [] ∨ ∃ e, devRes = ApiResult.err e) :
    (play_track uri devId devRes startRes).startCalls = [] ∧
    Msg.noDevicesRemediation ∈ (play_track uri devId devRes startRes).msgs := by
  rcases h with rfl | ⟨e, rfl⟩ <;> cases startRes <;> simp [play_track, get_devices]

theorem play_track_gated_on_device_readiness_witness :
    (play_track "spotify:track:aaa" none (ApiResult.ok []) (ApiResult.ok ())).startCalls = [] ∧
    Msg.noDevicesRemediation ∈
      (play_track "spotify:track:aaa" none (ApiResult.ok []) (ApiResult.ok ())).msgs :=
  play_track_gated_on_device_readiness "spotify:track:aaa" none (ApiResult.ok ())
    (ApiResult.ok []) (Or.inl rfl)

/-- Branch characterization: transport failure during search. -/
theorem sap_err_eq (query : String) (llmReply : Option String)
    (choiceInput : Option String) (devRes : ApiResult (List Device))
    (startRes : ApiResult Unit) (e : String) :
    search_and_play query llmReply (.err e) choiceInput devRes startRes =
      { msgs := (if enhance_search_query query llmReply ≠ query
            then [Msg.enhancedSearch (enhance_search_query query llmReply)] else [])
          ++ [Msg.errorSearching e, Msg.noTracksFound],
        searchCalls := [(enhance_search_query query llmReply, 5)] } := by
  simp [search_and_play, search_track]

/-- Branch characterization: search succeeded with zero items. -/
theorem sap_nil_eq (query : String) (llmReply : Option String)
    (choiceInput : Option String) (devRes : ApiResult (List Device))
    (startRes : ApiResult Unit) :
    search_and_play query llmReply (.ok []) choiceInput devRes startRes =
      { msgs := (if enhance_search_query query llmReply ≠ query
            then [Msg.enhancedSearch (enhance_search_query query llmReply)] else [])
          ++ [Msg.noTracksFound],
        searchCalls := [(enhance_search_query query llmReply, 5)] } := by
  simp [search_and_play, search_track]

/-- Branch characterization: interrupt while waiting at the prompt. -/
theorem sap_interrupt_eq (query : String) (llmReply : Option String)
    (t : Track) (ts' : List Track) (devRes : ApiResult (List Device))
    (startRes : ApiResult Unit) :
    search_and_play query llmReply (.ok (t :: ts')) none devRes startRes =
      { msgs := (if enhance_search_query query llmReply ≠ query
            then [Msg.enhancedSearch (enhance_search_query query llmReply)] else [])
          ++ [Msg.searchResults (enhance_search_query query llmReply) (t :: ts'),
              Msg.cancelled],
        searchCalls := [(enhance_search_query query llmReply, 5)] } := by
  simp [search_and_play, search_track]

/-- Branch characterization: non-numeric selection input (`ValueError`). -/
theorem sap_valueerror_eq (query : String) (llmReply : Option String)
    (t : Track) (ts' : List Track) (raw : String)
    (devRes : ApiResult (List Device)) (startRes : ApiResult Unit)
    (hsel : selectIndex raw = none) :
    search_and_play query llmReply (.ok (t :: ts')) (some raw) devRes startRes =
      { msgs := (if enhance_search_query query llmReply ≠ query
            then [Msg.enhancedSearch (enhance_search_query query llmReply)] else [])
          ++ [Msg.searchResults (enhance_search_query query llmReply) (t :: ts'),
              Msg.cancelled],
        searchCalls := [(enhance_search_query query llmReply, 5)] } := by
  simp only [search_and_play, search_track]
  rw [hsel]
  simp

/-- Branch characterization: in-range selection index. -/
theorem sap_valid_eq (query : String) (llmReply : Option String)
    (t : Track) (ts' : List Track) (raw : String)
    (devRes : ApiResult (List Device)) (startRes : ApiResult Unit)
    (index : Int) (hsel : selectIndex raw = some index)
    (h0 : 0 ≤ index) (hlt : index < ((t :: ts').length : Int)) :
    search_and_play query llmReply (.ok (t :: ts')) (some raw) devRes startRes =
      { msgs := ((if enhance_search_query query llmReply ≠ query
            then [Msg.enhancedSearch (enhance_search_query query llmReply)] else [])
          ++ [Msg.searchResults (enhance_search_query query llmReply) (t :: ts'),
              Msg.selectedTrack ((t :: ts').getD index.toNat defaultTrack)])
          ++ (play_track ((t :: ts').getD index.toNat defaultTrack).uri
                none devRes startRes).msgs,
        searchCalls := [(enhance_search_query query llmReply, 5)],
        playTrackCalls := [((t :: ts').getD index.toNat defaultTrack).uri],
        startCalls := (play_track ((t :: ts').getD index.toNat defaultTrack).uri
            none devRes startRes).startCalls } := by
  have hin : 0 ≤ index ∧ index < ((t :: ts').length : Int) := ⟨h0, hlt⟩
  simp only [search_and_play, search_track]
  rw [hsel]
  simp [hin]
  simp only [List.length_cons] at hlt
  push_cast at hlt
  omega

/-- Branch characterization: numeric but out-of-range selection. -/
theorem sap_invalid_eq (query : String) (llmReply : Option String)
    (t : Track) (ts' : List Track) (raw : String)
    (devRes : ApiResult (List Device)) (startRes : ApiResult Unit)
    (index : Int) (hsel : selectIndex raw = some index)
    (hout : ¬(0 ≤ index ∧ index < ((t :: ts').length : Int))) :
    search_and_play query llmReply (.ok (t :: ts')) (some raw) devRes startRes =
      { msgs := (if enhance_search_query query llmReply ≠ query
            then [Msg.enhancedSearch (enhance_search_query query llmReply)] else [])
          ++ [Msg.searchResults (enhance_search_query query llmReply) (t :: ts'),
              Msg.invalidSelection],
        searchCalls := [(enhance_search_query query llmReply, 5)] } := by
  simp only [search_and_play, search_track]
  rw [hsel]
  simp [hout]
  simp only [List.length_cons] at hout
  push_cast at hout
  omega

/-- C6: `play_best_match` searches with limit 1; a non-empty result yields
exactly one `play_track` invocation, for the top-ranked candidate, with
no prompt (the function consumes no selection input); an empty result
reports "no tracks found" with no `play_track` invocation. -/
theorem play_best_match_contract (query : String) (searchRes : ApiResult (List Track))
    (devRes : ApiResult (List Device)) (startRes : ApiResult Unit) :
    (play_best_match query searchRes devRes startRes).searchCalls = [(query, 1)] ∧
    (∀ ts, searchRes = ApiResult.ok ts → ts ≠ [] →
      (play_best_match query searchRes devRes startRes).playTrackCalls
        = [(ts.getD 0 defaultTrack).uri]) ∧
    (searchRes = ApiResult.ok [] →
      Msg.noTracksFound ∈ (play_best_match query searchRes devRes startRes).msgs ∧
      (play_best_match query searchRes devRes startRes).playTrackCalls = []) := by
  refine ⟨?_, ?_, ?_⟩
  · cases searchRes with
    | ok ts => cases ts <;> simp [play_best_match, search_track]
    | err e => simp [play_best_match, search_track]
  · rintro ts rfl hne
    cases ts with
    | nil => exact absurd rfl hne
    | cons t ts' => simp [play_best_match, search_track]
  · rintro rfl
    simp [play_best_match, search_track]

theorem play_best_match_contract_witness :
    (play_best_match "eye of the tiger" (ApiResult.ok [demoTrack2])
        (ApiResult.ok [demoDevice]) (ApiResult.ok ())).searchCalls
      = [("eye of the tiger", 1)] ∧
    (play_best_match "eye of the tiger" (ApiResult.ok [demoTrack2])
        (ApiResult.ok [demoDevice]) (ApiResult.ok ())).playTrackCalls
      = [([demoTrack2].getD 0 defaultTrack).uri] :=
  ⟨(play_best_match_contract "eye of the tiger" (ApiResult.ok [demoTrack2])
      (ApiResult.ok [demoDevice]) (ApiResult.ok ())).1,
   (play_best_match_contract "eye of the tiger" (ApiResult.ok [demoTrack2])
      (ApiResult.ok [demoDevice]) (ApiResult.ok ())).2.1 [demoTrack2] rfl (by simp)⟩

/-- C7: `search_and_play` always searches with the enhanced query bounded
to exactly 5 candidates, and whenever the enhanced query differs from the
input, the substituted query is the first line surfaced to the user. -/
theorem search_and_play_enhances_first (query : String) (llmReply : Option String)
    (searchRes : ApiResult (List Track)) (choiceInput : Option String)
    (devRes : ApiResult (List Device)) (startRes : ApiResult Unit) :
    (search_and_play query llmReply searchRes choiceInput devRes startRes).searchCalls
      = [(enhance_search_query query llmReply, 5)] ∧
    (enhance_search_query query llmReply ≠ query →
      (search_and_play query llmReply searchRes choiceInput devRes startRes).msgs.head?
        = some (Msg.enhancedSearch (enhance_search_query query llmReply))) := by
  cases searchRes with
  | err e =>
    rw [sap_err_eq]
    exact ⟨rfl, fun hq => by simp [hq]⟩
  | ok ts =>
    cases ts with
    | nil =>
      rw [sap_nil_eq]
      exact ⟨rfl, fun hq => by simp [hq]⟩
    | cons t ts' =>
      cases choiceInput with
      | none =>
        rw [sap_interrupt_eq]
        exact ⟨rfl, fun hq => by simp [hq]⟩
      | some raw =>
        cases hsel : selectIndex raw with
        | none =>
          rw [sap_valueerror_eq query llmReply t ts' raw devRes startRes hsel]
          exact ⟨rfl, fun hq => by simp [hq]⟩
        | some index =>
          by_cases hin : 0 ≤ index ∧ index < ((t :: ts').length : Int)
          · rw [sap_valid_eq query llmReply t ts' raw devRes startRes index hsel
                hin.1 hin.2]
            exact ⟨rfl, fun hq => by simp [hq]⟩
          · rw [sap_invalid_eq query llmReply t ts' raw devRes startRes index hsel hin]
            exact ⟨rfl, fun hq => by simp [hq]⟩

theorem search_and_play_enhances_first_witness :
    enhance_search_query "workout music" (some "Eye of the Tiger - Survivor")
      ≠ "workout music" ∧
    (search_and_play "workout music" (some "Eye of the Tiger - Survivor")
        (ApiResult.ok [demoTrack2]) (some "") (ApiResult.ok [demoDevice])
        (ApiResult.ok ())).msgs.head?
      = some (Msg.enhancedSearch
          (enhance_search_query "workout music" (some "Eye of the Tiger - Survivor"))) :=
  ⟨by decide,
   (search_and_play_enhances_first "workout music" (some "Eye of the Tiger - Survivor")
      (ApiResult.ok [demoTrack2]) (some "") (ApiResult.ok [demoDevice])
      (ApiResult.ok ())).2 (by decide)⟩

/-- Branch characterization: `play_best_match` when the search raises. -/
theorem pbm_err_eq (query : String) (devRes : ApiResult (List Device))
    (startRes : ApiResult Unit) (e : String) :
    play_best_match query (.err e) devRes startRes =
      { msgs := [Msg.errorSearching e, Msg.noTracksFound],
        searchCalls := [(query, 1)] } := by
  simp [play_best_match, search_track]

/-- Branch characterization: `play_best_match` on an empty result. -/
theorem pbm_nil_eq (query : String) (devRes : ApiResult (List Device))
    (startRes : ApiResult Unit) :
    play_best_match query (.ok []) devRes startRes =
      { msgs := [Msg.noTracksFound], searchCalls := [(query, 1)] } := by
  simp [play_best_match, search_track]

/-- C9: both resolution entry points treat a failed search (`search_track`
returns `None` after catching the transport error) and a successful
search with zero items identically: the final printed line is the
"No tracks found" notice, no `play_track` invocation and no transport
play command is made, and the operation terminates (the functions are
total). -/
theorem no_tracks_uniform_outcome (query : String) (llmReply : Option String)
    (choiceInput : Option String) (devRes : ApiResult (List Device))
    (startRes : ApiResult Unit) (e : String) :
    ((∃ pre, (search_and_play query llmReply (.err e) choiceInput devRes startRes).msgs
        = pre ++ [Msg.noTracksFound]) ∧
      (search_and_play query llmReply (.err e) choiceInput devRes startRes).playTrackCalls = [] ∧
      (search_and_play query llmReply (.err e) choiceInput devRes startRes).startCalls = []) ∧
    ((∃ pre, (search_and_play query llmReply (.ok []) choiceInput devRes startRes).msgs
        = pre ++ [Msg.noTracksFound]) ∧
      (search_and_play query llmReply (.ok []) choiceInput devRes startRes).playTrackCalls = [] ∧
      (search_and_play query llmReply (.ok []) choiceInput devRes startRes).startCalls = []) ∧
    ((∃ pre, (play_best_match query (.err e) devRes startRes).msgs
        = pre ++ [Msg.noTracksFound]) ∧
      (play_best_match query (.err e) devRes startRes).playTrackCalls = [] ∧
      (play_best_match query (.err e) devRes startRes).startCalls = []) ∧
    ((∃ pre, (play_best_match query (.ok []) devRes startRes).msgs
        = pre ++ [Msg.noTracksFound]) ∧
      (play_best_match query (.ok []) devRes startRes).playTrackCalls = [] ∧
      (play_best_match query (.ok []) devRes startRes).startCalls = []) := by
  rw [sap_err_eq, sap_nil_eq, pbm_err_eq, pbm_nil_eq]
  exact ⟨⟨⟨(if enhance_search_query query llmReply ≠ query
        then [Msg.enhancedSearch (enhance_search_query query llmReply)] else [])
        ++ [Msg.errorSearching e], by simp⟩, rfl, rfl⟩,
    ⟨⟨_, rfl⟩, rfl, rfl⟩,
    ⟨⟨[Msg.errorSearching e], rfl⟩, rfl, rfl⟩,
    ⟨⟨[], rfl⟩, rfl, rfl⟩⟩

/-- C10: a whitespace-only selection input is treated exactly like empty
input: the whole interactive resolution produces identical effects. -/
theorem whitespace_choice_like_empty (query : String) (llmReply : Option String)
    (searchRes : ApiResult (List Track)) (raw : String)
    (devRes : ApiResult (List Device)) (startRes : ApiResult Unit)
    (h : raw.data.all pyIsSpace = true) :
    search_and_play query llmReply searchRes (some raw) devRes startRes
      = search_and_play query llmReply searchRes (some "") devRes startRes := by
  have hsel : selectIndex raw = selectIndex "" := by
    simp [selectIndex, pyStripL_eq_nil_of_all_space h]
    rfl
  cases searchRes with
  | err e => rfl
  | ok ts =>
    cases ts with
    | nil => rfl
    | cons t ts' =>
      simp only [search_and_play]
      rw [hsel]

theorem whitespace_choice_like_empty_witness :
    "  \t ".data.all pyIsSpace = true ∧
    search_and_play "chill lofi" none (ApiResult.ok [demoTrack, demoTrack2])
        (some "  \t ") (ApiResult.ok [demoDevice]) (ApiResult.ok ())
      = search_and_play "chill lofi" none (ApiResult.ok [demoTrack, demoTrack2])
        (some "") (ApiResult.ok [demoDevice]) (ApiResult.ok ()) :=
  ⟨by decide,
   whitespace_choice_like_empty "chill lofi" none (ApiResult.ok [demoTrack, demoTrack2])
     "  \t " (ApiResult.ok [demoDevice]) (ApiResult.ok ()) (by decide)⟩

/-- C5 counterexample: over a candidate list of size 2, the non-numeric
selection input `"abc"` does not produce the invalid-selection notice:
`int("abc")` raises `ValueError`, which the handler reports as the
cancellation notice; no playback call is issued. -/
theorem nonnumeric_choice_reports_cancel_not_invalid :
    Msg.invalidSelection ∉
      (search_and_play "play something" none (ApiResult.ok [demoTrack, demoTrack2])
        (some "abc") (ApiResult.ok [demoDevice]) (ApiResult.ok ())).msgs ∧
    Msg.cancelled ∈
      (search_and_play "play something" none (ApiResult.ok [demoTrack, demoTrack2])
        (some "abc") (ApiResult.ok [demoDevice]) (ApiResult.ok ())).msgs ∧
    (search_and_play "play something" none (ApiResult.ok [demoTrack, demoTrack2])
        (some "abc") (ApiResult.ok [demoDevice]) (ApiResult.ok ())).playTrackCalls
      = [] := by
  decide

/-- C5 (amended): in interactive resolution over a candidate list of size
N with 1 ≤ N ≤ 5: empty (stripped) input selects candidate 1; a numeric
string k with k in [1, N] selects candidate k (1-indexed); an integer
outside [1, N] yields the invalid-selection notice with no playback
call; a non-numeric non-empty input raises `ValueError`, reported as the
cancellation notice — not the invalid-selection notice — with no
playback call. -/
theorem selection_input_contract (query : String) (llmReply : Option String)
    (ts : List Track) (raw : String) (devRes : ApiResult (List Device))
    (startRes : ApiResult Unit) (hN1 : 1 ≤ ts.length) (hN5 : ts.length ≤ 5) :
    (pyStripL raw.data = [] →
      (search_and_play query llmReply (.ok ts) (some raw) devRes startRes).playTrackCalls
        = [(ts.getD 0 defaultTrack).uri] ∧
      Msg.selectedTrack (ts.getD 0 defaultTrack) ∈
        (search_and_play query llmReply (.ok ts) (some raw) devRes startRes).msgs) ∧
    (∀ k : Int, pyInt (pyStripL raw.data) = some k → 1 ≤ k → k ≤ (ts.length : Int) →
      (search_and_play query llmReply (.ok ts) (some raw) devRes startRes).playTrackCalls
        = [(ts.getD (k - 1).toNat defaultTrack).uri] ∧
      Msg.selectedTrack (ts.getD (k - 1).toNat defaultTrack) ∈
        (search_and_play query llmReply (.ok ts) (some raw) devRes startRes).msgs) ∧
    (∀ k : Int, pyInt (pyStripL raw.data) = some k → (k < 1 ∨ (ts.length : Int) < k) →
      (search_and_play query llmReply (.ok ts) (some raw) devRes startRes).playTrackCalls
        = [] ∧
      Msg.invalidSelection ∈
        (search_and_play query llmReply (.ok ts) (some raw) devRes startRes).msgs) ∧
    (pyStripL raw.data ≠ [] → pyInt (pyStripL raw.data) = none →
      (search_and_play query llmReply (.ok ts) (some raw) devRes startRes).playTrackCalls
        = [] ∧
      Msg.cancelled ∈
        (search_and_play query llmReply (.ok ts) (some raw) devRes startRes).msgs) := by
  cases ts with
  | nil => simp at hN1
  | cons t ts' =>
    refine ⟨?_, ?_, ?_, ?_⟩
    · intro hempty
      have hsel : selectIndex raw = some 0 := by simp [selectIndex, hempty]
      rw [sap_valid_eq query llmReply t ts' raw devRes startRes 0 hsel le_rfl
        (by simp)]
      simp
    · intro k hk h1 hN
      have hne : pyStripL raw.data ≠ [] := by
        intro h0
        rw [h0] at hk
        simp [pyInt] at hk
      have hsel : selectIndex raw = some (k - 1) := by
        simp [selectIndex, hne, hk]
      have hlt : k - 1 < ((t :: ts').length : Int) := by
        simp only [List.length_cons] at hN ⊢
        push_cast at hN ⊢
        omega
      rw [sap_valid_eq query llmReply t ts' raw devRes startRes (k - 1) hsel
        (by omega) hlt]
      simp
    · intro k hk hout
      have hne : pyStripL raw.data ≠ [] := by
        intro h0
        rw [h0] at hk
        simp [pyInt] at hk
      have hsel : selectIndex raw = some (k - 1) := by
        simp [selectIndex, hne, hk]
      have houtrange : ¬(0 ≤ k - 1 ∧ k - 1 < ((t :: ts').length : Int)) := by
        simp only [List.length_cons] at hout ⊢
        push_cast at hout ⊢
        omega
      rw [sap_invalid_eq query llmReply t ts' raw devRes startRes (k - 1) hsel houtrange]
      simp
    · intro hne hnone
      have hsel : selectIndex raw = none := by
        simp [selectIndex, hne, hnone]
      rw [sap_valueerror_eq query llmReply t ts' raw devRes startRes hsel]
      simp

theorem selection_input_contract_witness :
    1 ≤ ([demoTrack, demoTrack2] : List Track).length ∧
    ([demoTrack, demoTrack2] : List Track).length ≤ 5 ∧
    pyInt (pyStripL " 2 ".data) = some 2 ∧
    (search_and_play "chill lofi" none (ApiResult.ok [demoTrack, demoTrack2])
        (some " 2 ") (ApiResult.ok [demoDevice]) (ApiResult.ok ())).playTrackCalls
      = [(([demoTrack, demoTrack2] : List Track).getD ((2 : Int) - 1).toNat
          defaultTrack).uri] :=
  ⟨by decide, by decide, by decide,
   ((selection_input_contract "chill lofi" none [demoTrack, demoTrack2] " 2 "
      (ApiResult.ok [demoDevice]) (ApiResult.ok ()) (by decide) (by decide)).2.1
      2 (by decide) (by decide) (by decide)).1⟩

end SpotifyCli
